import Mathlib

/-!
JusticeRollOn — verification of the petition lifecycle and related invariants

Shallow embedding of the civic-engagement application in `src/core/`
(Django models in `core/models.py`, DRF serializers in `core/serializers.py`,
views in `core/views.py`).  Roles, statuses and visibilities are string tags,
exactly as the source compares them.  The many-to-many supporter relation is a
finite set of user ids, as enforced by the relational schema (each
(petition, user) pair exists at most once in the join table).  Database
uniqueness constraints declared via `Meta.unique_together` are embedded as
guarded inserts on row lists.
-/

namespace JusticeRollOn

/-- Decidable equality of fallible results, so that concrete runs of the
embedded operations can be checked by evaluation. -/
instance {ε α : Type} [DecidableEq ε] [DecidableEq α] : DecidableEq (Except ε α) := fun a b =>
  match a, b with
  | .ok x, .ok y =>
      if h : x = y then isTrue (by rw [h]) else isFalse (fun hc => h (by injection hc))
  | .error x, .error y =>
      if h : x = y then isTrue (by rw [h]) else isFalse (fun hc => h (by injection hc))
  | .ok _, .error _ => isFalse (fun hc => by injection hc)
  | .error _, .ok _ => isFalse (fun hc => by injection hc)

/-- An account row of the custom `User` model (`core/models.py`), reduced to the
fields the claims touch: primary key and the `role` character field.  The role
is stored as a plain string; `ROLE_CHOICES` restricts it only where a form or
serializer validates choices. -/
structure User where
  id : Nat
  username : String
  role : String
  deriving DecidableEq, Repr

/-- The `ROLE_CHOICES` tuple from `core/models.py`: the allowed role tags. -/
def ROLE_CHOICES : List String := ["admin", "lawyer", "citizen"]

/-- Python `str.strip()`: remove leading and trailing whitespace.  Written by
structural recursion over the character list so concrete runs evaluate inside
the kernel. -/
def pyStrip (s : String) : String :=
  ⟨((s.data.dropWhile Char.isWhitespace).reverse.dropWhile Char.isWhitespace).reverse⟩

/-- A `Petition` row (`core/models.py`), with the supporter many-to-many
relation as the set of supporter user ids and the cached `supporter_count`
integer field (default 0).  `published_at` is nullable; time is an abstract
`Nat` tick supplied by the caller where the code reads the clock. -/
structure Petition where
  id : Nat
  creatorId : Nat
  title : String
  description : String
  category : String
  visibility : String
  status : String
  supporters : Finset Nat
  supporter_count : Nat
  published_at : Option Nat
  deriving DecidableEq

/-- Outcome of `join_petition` (`core/views.py`, lines 344-367). -/
inductive JoinResult where
  /-- Lookup `get_object_or_404` with the published-status filter found no row: HTTP 404. -/
  | notFound
  /-- Rejection with the only-citizens-can-support message: HTTP 403. -/
  | forbidden
  /-- Informational 200 with the already-support message; nothing is mutated. -/
  | alreadySupported
  /-- Success message, carrying the fresh supporter count. -/
  | supported (count : Nat)
  deriving DecidableEq, Repr

/-- View `join_petition` (`core/views.py`): the view looks the petition up with
`status="published"` (404 otherwise), rejects non-citizen roles with 403,
answers idempotently when the caller already supports, and otherwise adds the
caller to the supporter set and recomputes `supporter_count` as
`petition.supporters.count()`, the cardinality of the stored set.  Returns the
HTTP outcome together with the persisted petition row. -/
def join_petition (user : User) (p : Petition) : JoinResult × Petition :=
  if p.status ≠ "published" then (.notFound, p)
  else if user.role ≠ "citizen" then (.forbidden, p)
  else if user.id ∈ p.supporters then (.alreadySupported, p)
  else
    let supporters := insert user.id p.supporters
    let p' := { p with supporters := supporters, supporter_count := supporters.card }
    (.supported supporters.card, p')

/-- Run a sequence of support attempts, keeping only the persisted state. -/
def supportSeq (p : Petition) (users : List User) : Petition :=
  users.foldl (fun q u => (join_petition u q).2) p

/-- Outcome of `submit_for_review` (`core/views.py`, lines 393-415). -/
inductive SubmitResult where
  /-- Rejection: the actor is not the creator ("You can only submit your own petitions."): HTTP 403. -/
  | notCreator
  /-- Rejection: the actor is not a citizen ("Only citizens can submit petitions."): HTTP 403. -/
  | notCitizen
  /-- Informational 200 reporting the petition is already in the given status; no state change. -/
  | alreadyStatus (s : String)
  /-- Success: status moved to pending. -/
  | submitted
  deriving DecidableEq, Repr

/-- View `submit_for_review` (`core/views.py`): creator check first, then role
check, then the draft-status guard; only a citizen creator acting on a draft
mutates the row, setting `status = "pending"`. -/
def submit_for_review (user : User) (p : Petition) : SubmitResult × Petition :=
  if p.creatorId ≠ user.id then (.notCreator, p)
  else if user.role ≠ "citizen" then (.notCitizen, p)
  else if p.status ≠ "draft" then (.alreadyStatus p.status, p)
  else (.submitted, { p with status := "pending" })

/-- Outcome of `approve_petition` (`core/views.py`, lines 370-390). -/
inductive ApproveResult where
  /-- Rejection: the actor is not an admin ("Only admins can approve petitions."): HTTP 403. -/
  | forbidden
  /-- Informational 200: the petition is not pending review. -/
  | notPending
  /-- Unhandled `NameError`: `timezone.now()` is evaluated but no import in
  `core/views.py` (lines 16-33) binds `timezone`, so the request dies with an
  HTTP 500 before `petition.save()` runs. -/
  | nameError
  deriving DecidableEq, Repr

/-- View `approve_petition` (`core/views.py`): admin gate, then the pending-status
guard.  On the would-be success path the code assigns
`petition.status = "published"` on the in-memory object and then evaluates
`timezone.now()`; `timezone` is never imported in `core/views.py`, so a
`NameError` escapes before `petition.save()`, and the persisted row is
unchanged.  The second component is the persisted state. -/
def approve_petition (user : User) (p : Petition) : ApproveResult × Petition :=
  if user.role ≠ "admin" then (.forbidden, p)
  else if p.status ≠ "pending" then (.notPending, p)
  else (.nameError, p)

/-- Error outcomes of the API petition-creation path
(`PetitionViewSet` with `PetitionCreateSerializer`). -/
inductive CreateError where
  /-- Permission class `IsAuthenticatedOrReadOnly` blocks an unauthenticated POST: HTTP 401/403. -/
  | notAuthenticated
  /-- Validation failure ("Description must be at least 50 characters.") from
  `PetitionCreateSerializer.validate`. -/
  | validationError
  deriving DecidableEq, Repr

/-- API petition creation: `PetitionViewSet.perform_create` (`core/views.py`,
lines 286-312) with `PetitionCreateSerializer` (`core/serializers.py`, lines
142-159).  The permission class requires authentication for writes; the
serializer's `validate` raises unless the stripped description has at least 50
characters; no role check exists on this path.  `perform_create` stores the
requester as creator; model defaults give `status = "draft"` and
`supporter_count = 0`. -/
def api_petition_create (viewer : Option User) (pid : Nat)
    (title description category visibility : String) : Except CreateError Petition :=
  match viewer with
  | none => .error .notAuthenticated
  | some u =>
    if (pyStrip description).length < 50 then .error .validationError
    else .ok { id := pid, creatorId := u.id, title := title, description := description,
               category := category, visibility := visibility, status := "draft",
               supporters := ∅, supporter_count := 0, published_at := none }

/-- Outcome of the HTML petition-creation view. -/
inductive HtmlCreateResult where
  /-- Warning that only citizens can create petitions, with a redirect to the dashboard. -/
  | onlyCitizens
  /-- Warning that title and description are required, with a redirect to the form. -/
  | missingFields
  /-- Success, carrying the stored draft row. -/
  | created (p : Petition)
  deriving DecidableEq

/-- HTML petition creation: `petition_create` (`core/views.py`, lines 225-264).
Requires role citizen; requires truthy (non-empty) title and description —
there is no 50-character minimum on this path; stores the draft with
`status = "draft"` and default `supporter_count = 0`. -/
def petition_create (user : User) (pid : Nat)
    (title description category visibility : String) : HtmlCreateResult :=
  if user.role ≠ "citizen" then .onlyCitizens
  else if title = "" ∨ description = "" then .missingFields
  else .created { id := pid, creatorId := user.id, title := title, description := description,
                  category := category, visibility := visibility, status := "draft",
                  supporters := ∅, supporter_count := 0, published_at := none }

/-- View `justice_index` (`core/views.py`, lines 44-61): the public petition index
filters on `status="published"` only — `visibility` is not consulted, so the
predicate is independent of the viewer. -/
def justice_index_visible (p : Petition) : Bool :=
  p.status == "published"

/-- View `petition_detail` (`core/views.py`, lines 64-82): the lookup is
`get_object_or_404(Petition, pk=pk, status="published")` — again no
visibility filter and no viewer dependence. -/
def petition_detail_visible (p : Petition) : Bool :=
  p.status == "published"

/-- Method `PetitionViewSet.get_queryset` (`core/views.py`, lines 304-312): admins see
every petition; an authenticated non-admin sees their own petitions plus
published public ones; anonymous viewers see published public ones only. -/
def petition_queryset_visible (viewer : Option User) (p : Petition) : Bool :=
  match viewer with
  | some u =>
    if u.role == "admin" then true
    else p.creatorId == u.id || (p.status == "published" && p.visibility == "public")
  | none => p.status == "published" && p.visibility == "public"

/-- Modelled from the spec (for comparison with the code): "published+public
petitions are visible to anyone; all other combinations are visible only to
the creator and to admin actors". -/
def spec_visible (viewer : Option User) (p : Petition) : Bool :=
  (p.status == "published" && p.visibility == "public") ||
    (match viewer with
     | some u => u.role == "admin" || p.creatorId == u.id
     | none => false)

/-- Outcome of the HTML registration view. -/
inductive HtmlRegisterResult where
  /-- Error: the username already exists. -/
  | usernameExists
  /-- Account created and logged in; carries the stored user row. -/
  | registered (u : User)
  deriving DecidableEq, Repr

/-- HTML registration: `register_page` (`core/views.py`, lines 88-105).  Open
to anonymous requests; the role is read straight from the POST data with
default citizen and passed to `create_user` unvalidated — any string is
stored.  The only check is username uniqueness. -/
def register_page (existing : List String) (uid : Nat)
    (username _password : String) (role : Option String) : HtmlRegisterResult :=
  if existing.contains username then .usernameExists
  else .registered { id := uid, username := username, role := role.getD ("citizen") }

/-- Validation failures of the API registration path. -/
inductive RegisterError where
  /-- Validator generated for the unique `username` column rejected the name. -/
  | usernameTaken
  /-- The password field declares `min_length=8`. -/
  | passwordTooShort
  /-- Field `role` maps to a choice field over `ROLE_CHOICES`; other strings are
  rejected with a validation error. -/
  | invalidRoleChoice
  deriving DecidableEq, Repr

/-- API registration: `RegisterAPI` (`core/views.py`, lines 324-341) with
`RegisterSerializer` (`core/serializers.py`, lines 48-73).  Open to anonymous
requests (`AllowAny`).  The model serializer validates username uniqueness,
the 8-character password minimum, and that a supplied role is one of
`ROLE_CHOICES`; `create` then stores the role, defaulting to citizen when
absent.  No authorization check restricts which role may be requested. -/
def RegisterSerializer_create (existing : List String) (uid : Nat)
    (username password : String) (role : Option String) : Except RegisterError User :=
  if existing.contains username then .error .usernameTaken
  else if password.length < 8 then .error .passwordTooShort
  else
    match role with
    | some r =>
        if ROLE_CHOICES.contains r then .ok { id := uid, username := username, role := r }
        else .error .invalidRoleChoice
    | none => .ok { id := uid, username := username, role := "citizen" }

/-- Database error surfaced by a violated uniqueness constraint. -/
inductive DbError where
  | constraintViolation
  deriving DecidableEq, Repr

/-- A `ConsultationBooking` row (`core/models.py`, lines 256-282):
`slot` and `user` foreign keys and the `confirmed` flag (default false). -/
structure ConsultationBooking where
  slotId : Nat
  userId : Nat
  confirmed : Bool
  deriving DecidableEq, Repr

/-- Whether the booking table already holds a row for the (slot, user) pair. -/
def hasBooking (table : List ConsultationBooking) (slotId userId : Nat) : Bool :=
  table.any fun b => b.slotId == slotId && b.userId == userId

/-- Row insertion into the `ConsultationBooking` table under
`Meta.unique_together = [slot, user]` (`core/models.py`): the database rejects
a duplicate (slot, user) pair with a constraint violation; otherwise the row
is appended with `confirmed = False`. -/
def insertBooking (table : List ConsultationBooking) (slotId userId : Nat) :
    Except DbError (List ConsultationBooking) :=
  if hasBooking table slotId userId then .error .constraintViolation
  else .ok (table ++ [{ slotId := slotId, userId := userId, confirmed := false }])

/-- A `DepositionEvidence` row (`core/models.py`, lines 316-331): the through
model tying an evidence item into a deposition at an integer position. -/
structure DepositionEvidence where
  depositionId : Nat
  evidenceId : Nat
  order : Nat
  deriving DecidableEq, Repr

/-- Whether the through table already links the deposition and the evidence. -/
def hasDepositionEvidence (table : List DepositionEvidence) (d e : Nat) : Bool :=
  table.any fun r => r.depositionId == d && r.evidenceId == e

/-- Row insertion into the `DepositionEvidence` table under
`Meta.unique_together = [deposition, evidence]` (`core/models.py`): a second
link of the same evidence to the same deposition is rejected by the database;
otherwise the row is appended with the given position. -/
def insertDepositionEvidence (table : List DepositionEvidence) (d e pos : Nat) :
    Except DbError (List DepositionEvidence) :=
  if hasDepositionEvidence table d e then .error .constraintViolation
  else .ok (table ++ [{ depositionId := d, evidenceId := e, order := pos }])

/-- No (deposition, evidence) pair occurs twice in the through table: no
evidence appears twice in one deposition's ordered sequence. -/
def depositionSeqUnique (table : List DepositionEvidence) : Prop :=
  (table.map fun r => (r.depositionId, r.evidenceId)).Nodup

/-! Concrete fixtures used by witnesses and counterexamples. -/

/-- Fixture: a citizen account (id 1). -/
def citizenW : User := { id := 1, username := "amina", role := "citizen" }

/-- Fixture: a second citizen account (id 2). -/
def citizen2W : User := { id := 2, username := "bilal", role := "citizen" }

/-- Fixture: an admin account (id 9). -/
def adminW : User := { id := 9, username := "root9", role := "admin" }

/-- Fixture: a lawyer account (id 7). -/
def lawyerW : User := { id := 7, username := "dara", role := "lawyer" }

/-- Fixture: a description of more than 50 characters. -/
def descW : String :=
  "Residents of the north ward have lacked safe drinking water since March."

/-- Fixture: a description of fewer than 50 characters. -/
def descShortW : String := "Too short a description."

/-- Fixture: the draft petition citizen 1 creates in the scenarios. -/
def draftW : Petition :=
  { id := 1, creatorId := 1, title := "Clean Water", description := descW,
    category := "environment", visibility := "public", status := "draft",
    supporters := ∅, supporter_count := 0, published_at := none }

/-- Fixture: the same petition after its creator submits it for review. -/
def pendingW : Petition := (submit_for_review citizenW draftW).2

/-- Fixture: a published public petition with no supporters yet. -/
def publishedW : Petition := { draftW with id := 2, status := "published" }

/-- Fixture: a published petition whose visibility is private. -/
def privPublishedW : Petition :=
  { draftW with id := 3, status := "published", visibility := "private" }

/-! Theorems settling the claims. -/

/-- Claim C5: for every actor of every role, calling support on a petition
whose status is not published fails with the NotFound outcome and leaves the
petition unchanged. -/
theorem C5_support_requires_published (u : User) (p : Petition)
    (h : p.status ≠ "published") : join_petition u p = (.notFound, p) := by
  simp [join_petition, h]

/-- Witness for C5 at a concrete input: an admin supporting a draft petition. -/
theorem C5_support_requires_published_witness :
    draftW.status ≠ "published" ∧ join_petition adminW draftW = (.notFound, draftW) :=
  ⟨by decide, C5_support_requires_published adminW draftW (by decide)⟩

/-- Claim C6: on a published petition, support by an actor whose role is not
citizen fails with PermissionDenied and leaves the supporter set and the
cached count unchanged (the returned row is the input row). -/
theorem C6_support_requires_citizen_role (u : User) (p : Petition)
    (hp : p.status = "published") (hr : u.role ≠ "citizen") :
    join_petition u p = (.forbidden, p) := by
  simp [join_petition, hp, hr]

/-- Witness for C6 at a concrete input: a lawyer supporting a published petition. -/
theorem C6_support_requires_citizen_role_witness :
    publishedW.status = "published" ∧ lawyerW.role ≠ "citizen"
    ∧ join_petition lawyerW publishedW = (.forbidden, publishedW) :=
  ⟨by decide, by decide,
    C6_support_requires_citizen_role lawyerW publishedW (by decide) (by decide)⟩

/-- Claim C7: submit_for_review rejects (with a 403, leaving the row
unchanged) any actor who is not the creator, and any creator whose role is not
citizen; a citizen creator on a non-draft petition gets an informational
already-in-status reply with no state change; only a citizen creator acting on
a draft moves the status to pending. -/
theorem C7_submit_for_review_gating (u : User) (p : Petition) :
    (p.creatorId ≠ u.id → submit_for_review u p = (.notCreator, p))
    ∧ (p.creatorId = u.id → u.role ≠ "citizen" → submit_for_review u p = (.notCitizen, p))
    ∧ (p.creatorId = u.id → u.role = "citizen" → p.status ≠ "draft" →
        submit_for_review u p = (.alreadyStatus p.status, p))
    ∧ (p.creatorId = u.id → u.role = "citizen" → p.status = "draft" →
        submit_for_review u p = (.submitted, { p with status := "pending" })) := by
  refine ⟨fun h => ?_, fun h1 h2 => ?_, fun h1 h2 h3 => ?_, fun h1 h2 h3 => ?_⟩ <;>
    simp [submit_for_review, *]

/-- Witness for C7 at concrete inputs: a non-creator citizen is rejected, and
the citizen creator successfully submits the draft. -/
theorem C7_submit_for_review_gating_witness :
    (draftW.creatorId ≠ citizen2W.id
      ∧ submit_for_review citizen2W draftW = (.notCreator, draftW))
    ∧ (draftW.creatorId = citizenW.id ∧ citizenW.role = "citizen" ∧ draftW.status = "draft"
      ∧ submit_for_review citizenW draftW = (.submitted, { draftW with status := "pending" })) :=
  ⟨⟨by decide, (C7_submit_for_review_gating citizen2W draftW).1 (by decide)⟩,
   ⟨by decide, by decide, by decide,
     (C7_submit_for_review_gating citizenW draftW).2.2.2 (by decide) (by decide) (by decide)⟩⟩

/-- Single-step lemma: every branch of `join_petition` keeps the cached
`supporter_count` equal to the cardinality of the supporter set. -/
theorem join_petition_preserves_count (u : User) (p : Petition)
    (h : p.supporter_count = p.supporters.card) :
    ((join_petition u p).2).supporter_count = ((join_petition u p).2).supporters.card := by
  unfold join_petition
  split
  · exact h
  · split
    · exact h
    · split
      · exact h
      · rfl

/-- Claim C1: starting from a petition whose cached count equals the
cardinality of its supporter set, any sequence of support calls preserves that
equality; moreover (on a published petition, for a citizen caller) a repeat
support returns the already-supported reply and leaves the row unchanged,
while a first support inserts the caller and recomputes the cache as the new
set's cardinality. -/
theorem C1_supporter_count_invariant (p : Petition) (us : List User) (u : User)
    (h : p.supporter_count = p.supporters.card) :
    (supportSeq p us).supporter_count = (supportSeq p us).supporters.card
    ∧ (p.status = "published" → u.role = "citizen" →
        (u.id ∈ p.supporters → join_petition u p = (.alreadySupported, p))
        ∧ (u.id ∉ p.supporters →
            join_petition u p =
              (.supported (insert u.id p.supporters).card,
                { p with supporters := insert u.id p.supporters,
                         supporter_count := (insert u.id p.supporters).card }))) := by
  refine ⟨?_, ?_⟩
  · induction us generalizing p with
    | nil => simpa [supportSeq] using h
    | cons v vs ih =>
        simpa [supportSeq] using ih _ (join_petition_preserves_count v p h)
  · intro hs hr
    refine ⟨fun hm => ?_, fun hm => ?_⟩
    · simp [join_petition, hs, hr, hm]
    · simp [join_petition, hs, hr, hm]

/-- Witness for C1 at a concrete input: citizen 2 supports a freshly published
petition twice; the invariant hypothesis holds and is preserved. -/
theorem C1_supporter_count_invariant_witness :
    publishedW.supporter_count = publishedW.supporters.card
    ∧ (supportSeq publishedW [citizen2W, citizen2W]).supporter_count =
        (supportSeq publishedW [citizen2W, citizen2W]).supporters.card :=
  ⟨by decide,
   (C1_supporter_count_invariant publishedW [citizen2W, citizen2W] citizen2W (by decide)).1⟩

/-- Concrete evaluation of the support flow: the second support by the same
citizen is answered with the already-supported reply, leaves the row
untouched, and the cached count stays 1. -/
theorem join_petition_idempotent_eval :
    (join_petition citizen2W publishedW).1 = .supported 1
    ∧ join_petition citizen2W (join_petition citizen2W publishedW).2 =
        (.alreadySupported, (join_petition citizen2W publishedW).2)
    ∧ (supportSeq publishedW [citizen2W, citizen2W]).supporter_count = 1 := by
  decide

/-- Claim C2 (code-bug evidence): the citizen creates the draft through the
API, submits it, and the admin approves — but `approve_petition` evaluates
`timezone.now()` with no `timezone` import in `core/views.py`, so the approve
request dies with a NameError before saving: the petition stays pending with a
null publish timestamp, and a repeated approve fails identically instead of
returning the informational reply the claim expects. -/
theorem C2_approve_never_publishes :
    api_petition_create (some citizenW) 1 ("Clean Water") (descW) ("environment") ("public") =
      .ok draftW
    ∧ submit_for_review citizenW draftW = (.submitted, pendingW)
    ∧ pendingW.status = "pending"
    ∧ approve_petition adminW pendingW = (.nameError, pendingW)
    ∧ approve_petition adminW (approve_petition adminW pendingW).2 = (.nameError, pendingW)
    ∧ pendingW.published_at = none := by
  decide

/-- Sanity: the API queryset rule of `PetitionViewSet.get_queryset` coincides
extensionally with the visibility rule stated by the specification. -/
theorem petition_queryset_matches_spec_rule (viewer : Option User) (p : Petition) :
    petition_queryset_visible viewer p = spec_visible viewer p := by
  cases viewer with
  | none => simp [petition_queryset_visible, spec_visible]
  | some u =>
      cases h : (u.role == "admin") <;>
        simp [petition_queryset_visible, spec_visible, h, Bool.or_comm]

/-- Claim C3 (code-bug evidence): a petition that is published but private is
shown by the public HTML index and detail views to everyone — including an
anonymous viewer and an unrelated citizen — although the stated rule (and the
API queryset, which implements it) hides every non-public combination from
everyone but the creator and admins. -/
theorem C3_private_published_leaks :
    privPublishedW.status = "published" ∧ privPublishedW.visibility = "private"
    ∧ justice_index_visible privPublishedW = true
    ∧ petition_detail_visible privPublishedW = true
    ∧ spec_visible none privPublishedW = false
    ∧ spec_visible (some citizen2W) privPublishedW = false
    ∧ petition_queryset_visible none privPublishedW = false
    ∧ petition_queryset_visible (some citizen2W) privPublishedW = false := by
  decide

/-- Claim C4 counterexample: the claim as stated fails on both entry points.
Through the API an admin-role actor creates a draft successfully (no role
check raises a ValidationError), and through the HTML form a citizen creates a
draft whose description is far shorter than 50 characters (only emptiness is
checked). -/
theorem C4_counterexample :
    (adminW.role ≠ "citizen"
      ∧ api_petition_create (some adminW) 2 ("Title") (descW) ("general") ("public") =
          .ok { id := 2, creatorId := 9, title := "Title", description := descW,
                category := "general", visibility := "public", status := "draft",
                supporters := ∅, supporter_count := 0, published_at := none })
    ∧ (descShortW.length < 50
      ∧ petition_create citizenW 3 ("Title") (descShortW) ("general") ("public") =
          .created { id := 3, creatorId := 1, title := "Title", description := descShortW,
                     category := "general", visibility := "public", status := "draft",
                     supporters := ∅, supporter_count := 0, published_at := none }) := by
  decide

/-- Claim C4 as amended: the API path rejects (ValidationError) exactly the
descriptions whose stripped length is under 50, for any authenticated actor of
any role, and otherwise yields a draft with supporter count 0; the HTML path
rejects non-citizens and empty fields but applies no length minimum, likewise
yielding a draft with supporter count 0 on success. -/
theorem C4_create_draft_amended (u : User) (pid : Nat)
    (title description category visibility : String) :
    ((pyStrip description).length < 50 →
        api_petition_create (some u) pid title description category visibility =
          .error .validationError)
    ∧ (50 ≤ (pyStrip description).length →
        api_petition_create (some u) pid title description category visibility =
          .ok { id := pid, creatorId := u.id, title := title, description := description,
                category := category, visibility := visibility, status := "draft",
                supporters := ∅, supporter_count := 0, published_at := none })
    ∧ (u.role ≠ "citizen" →
        petition_create u pid title description category visibility = .onlyCitizens)
    ∧ (u.role = "citizen" → title ≠ "" → description ≠ "" →
        petition_create u pid title description category visibility =
          .created { id := pid, creatorId := u.id, title := title, description := description,
                     category := category, visibility := visibility, status := "draft",
                     supporters := ∅, supporter_count := 0, published_at := none }) := by
  refine ⟨fun h => ?_, fun h => ?_, fun h => ?_, fun h1 h2 h3 => ?_⟩
  · simp [api_petition_create, h]
  · simp [api_petition_create, Nat.not_lt.mpr h]
  · simp [petition_create, h]
  · simp [petition_create, h1, h2, h3]

/-- Witness for the amended C4 at concrete inputs: a short description fails
API validation for a citizen, and the HTML form turns an admin away. -/
theorem C4_create_draft_amended_witness :
    ((pyStrip descShortW).length < 50
      ∧ api_petition_create (some citizenW) 4 ("Title") (descShortW) ("general") ("public") =
          .error .validationError)
    ∧ (adminW.role ≠ "citizen"
      ∧ petition_create adminW 4 ("Title") (descW) ("general") ("public") = .onlyCitizens) :=
  ⟨⟨by decide,
    (C4_create_draft_amended citizenW 4 ("Title") (descShortW) ("general") ("public")).1
      (by decide)⟩,
   ⟨by decide,
    (C4_create_draft_amended adminW 4 ("Title") (descW) ("general") ("public")).2.2.1
      (by decide)⟩⟩

/-- Appending one row changes the duplicate-pair check by exactly that row's
(slot, user) pair. -/
theorem hasBooking_append_single (t : List ConsultationBooking) (b : ConsultationBooking)
    (s u : Nat) :
    hasBooking (t ++ [b]) s u = (hasBooking t s u || (b.slotId == s && b.userId == u)) := by
  simp [hasBooking, List.any_append]

/-- Claim C8: inserting a booking for a (slot, user) pair already present is
rejected with a constraint violation — in particular the second identical
booking attempt — while bookings of two different slots by two different
citizens both succeed independently. -/
theorem C8_booking_uniqueness (t : List ConsultationBooking) (s u s1 u1 s2 u2 : Nat) :
    (hasBooking t s u = false →
        insertBooking t s u = .ok (t ++ [{ slotId := s, userId := u, confirmed := false }])
        ∧ insertBooking (t ++ [{ slotId := s, userId := u, confirmed := false }]) s u =
            .error .constraintViolation)
    ∧ (hasBooking t s1 u1 = false → hasBooking t s2 u2 = false → s1 ≠ s2 → u1 ≠ u2 →
        insertBooking t s1 u1 =
            .ok (t ++ [{ slotId := s1, userId := u1, confirmed := false }])
        ∧ insertBooking (t ++ [{ slotId := s1, userId := u1, confirmed := false }]) s2 u2 =
            .ok (t ++ [{ slotId := s1, userId := u1, confirmed := false },
                       { slotId := s2, userId := u2, confirmed := false }])) := by
  constructor
  · intro h
    refine ⟨by simp [insertBooking, h], ?_⟩
    have hdup : hasBooking (t ++ [{ slotId := s, userId := u, confirmed := false }]) s u = true := by
      rw [hasBooking_append_single]
      simp
    simp [insertBooking, hdup]
  · intro ha hb hs hu
    refine ⟨by simp [insertBooking, ha], ?_⟩
    have hfree : hasBooking (t ++ [{ slotId := s1, userId := u1, confirmed := false }]) s2 u2 =
        false := by
      rw [hasBooking_append_single, hb]
      simp [hs, hu]
    simp [insertBooking, hfree, List.append_assoc]

/-- Witness for C8 at concrete inputs: on an empty table, booking slot 1 by
citizen 1 succeeds and repeats fail; bookings of slots 1 and 2 by citizens 2
and 3 both succeed. -/
theorem C8_booking_uniqueness_witness :
    (hasBooking [] 1 1 = false
      ∧ (insertBooking [] 1 1 = .ok [{ slotId := 1, userId := 1, confirmed := false }]
        ∧ insertBooking [{ slotId := 1, userId := 1, confirmed := false }] 1 1 =
            .error .constraintViolation))
    ∧ (insertBooking [] 1 2 = .ok [{ slotId := 1, userId := 2, confirmed := false }]
      ∧ insertBooking [{ slotId := 1, userId := 2, confirmed := false }] 2 3 =
          .ok [{ slotId := 1, userId := 2, confirmed := false },
               { slotId := 2, userId := 3, confirmed := false }]) :=
  ⟨⟨by decide, (C8_booking_uniqueness [] 1 1 1 2 2 3).1 (by decide)⟩,
   (C8_booking_uniqueness [] 1 1 1 2 2 3).2 (by decide) (by decide) (by decide) (by decide)⟩

/-- Appending one row changes the duplicate-pair check by exactly that row's
(deposition, evidence) pair. -/
theorem hasDepositionEvidence_append_single (t : List DepositionEvidence)
    (r : DepositionEvidence) (d e : Nat) :
    hasDepositionEvidence (t ++ [r]) d e =
      (hasDepositionEvidence t d e || (r.depositionId == d && r.evidenceId == e)) := by
  simp [hasDepositionEvidence, List.any_append]

/-- Claim C9: attaching the same evidence twice to one deposition is rejected
on the second attempt by the (deposition, evidence) uniqueness constraint, and
consequently a table in which no pair repeats stays that way across successful
inserts: no evidence occurs twice in one deposition's sequence. -/
theorem C9_deposition_evidence_uniqueness (t : List DepositionEvidence) (d e pos pos2 : Nat) :
    (hasDepositionEvidence t d e = false →
        insertDepositionEvidence t d e pos =
            .ok (t ++ [{ depositionId := d, evidenceId := e, order := pos }])
        ∧ insertDepositionEvidence
              (t ++ [{ depositionId := d, evidenceId := e, order := pos }]) d e pos2 =
            .error .constraintViolation)
    ∧ (depositionSeqUnique t →
        ∀ t2, insertDepositionEvidence t d e pos = .ok t2 → depositionSeqUnique t2) := by
  constructor
  · intro h
    refine ⟨by simp [insertDepositionEvidence, h], ?_⟩
    have hdup : hasDepositionEvidence
        (t ++ [{ depositionId := d, evidenceId := e, order := pos }]) d e = true := by
      rw [hasDepositionEvidence_append_single]
      simp
    simp [insertDepositionEvidence, hdup]
  · intro hu t2 hins
    by_cases h : hasDepositionEvidence t d e = true
    · simp [insertDepositionEvidence, h] at hins
    · rw [insertDepositionEvidence, if_neg (by simp [h])] at hins
      injection hins with hins
      subst hins
      unfold depositionSeqUnique at hu ⊢
      rw [List.map_append, List.nodup_append_comm]
      simp only [List.map_cons, List.map_nil, List.singleton_append, List.nodup_cons]
      refine ⟨?_, hu⟩
      intro hmem
      rw [List.mem_map] at hmem
      obtain ⟨r, hr, hpair⟩ := hmem
      apply h
      rw [hasDepositionEvidence, List.any_eq_true]
      refine ⟨r, hr, ?_⟩
      have h1 : r.depositionId = d := congrArg Prod.fst hpair
      have h2 : r.evidenceId = e := congrArg Prod.snd hpair
      simp [h1, h2]

/-- Witness for C9 at concrete inputs: attaching evidence 5 to deposition 4
succeeds once and fails on the repeat even at a different position, and the
resulting one-row table has no repeated pair. -/
theorem C9_deposition_evidence_uniqueness_witness :
    (hasDepositionEvidence [] 4 5 = false
      ∧ (insertDepositionEvidence [] 4 5 0 =
            .ok [{ depositionId := 4, evidenceId := 5, order := 0 }]
        ∧ insertDepositionEvidence [{ depositionId := 4, evidenceId := 5, order := 0 }] 4 5 1 =
            .error .constraintViolation))
    ∧ (depositionSeqUnique ([] : List DepositionEvidence)
      ∧ depositionSeqUnique [{ depositionId := 4, evidenceId := 5, order := 0 }]) :=
  ⟨⟨by decide, (C9_deposition_evidence_uniqueness [] 4 5 0 1).1 (by decide)⟩,
   ⟨by simp [depositionSeqUnique],
    (C9_deposition_evidence_uniqueness [] 4 5 0 1).2 (by simp [depositionSeqUnique])
      [{ depositionId := 4, evidenceId := 5, order := 0 }] (by decide)⟩⟩

/-- Claim C10 counterexample: the API registration path does validate the role
against the allowed set — a request carrying an out-of-set role string is
rejected with a validation error instead of creating an account bearing that
role. -/
theorem C10_counterexample :
    ROLE_CHOICES.contains ("superuser") = false
    ∧ RegisterSerializer_create [] 7 ("mallory") ("longpassword") (some ("superuser")) =
        .error .invalidRoleChoice := by
  decide

/-- Claim C10 as amended: registration performs no authorization check on
either path and defaults the role to citizen when absent; the HTML form stores
whatever role string is supplied, unvalidated, while the API accepts exactly
the roles in the allowed set (so an anonymous caller can obtain role admin on
either path, and an arbitrary string only via the HTML form). -/
theorem C10_registration_role_amended (existing : List String) (uid : Nat)
    (username password : String) (role : Option String) (r : String) :
    (existing.contains username = false →
        register_page existing uid username password role =
          .registered { id := uid, username := username, role := role.getD ("citizen") })
    ∧ (existing.contains username = false → 8 ≤ password.length →
        ROLE_CHOICES.contains r = true →
        RegisterSerializer_create existing uid username password (some r) =
          .ok { id := uid, username := username, role := r })
    ∧ (existing.contains username = false → 8 ≤ password.length →
        RegisterSerializer_create existing uid username password none =
          .ok { id := uid, username := username, role := "citizen" })
    ∧ (existing.contains username = false → 8 ≤ password.length →
        ROLE_CHOICES.contains r = false →
        RegisterSerializer_create existing uid username password (some r) =
          .error .invalidRoleChoice) := by
  refine ⟨fun h => ?_, fun h h2 h3 => ?_, fun h h2 => ?_, fun h h2 h3 => ?_⟩
  · have h' : username ∉ existing := by simpa using h
    simp [register_page, h']
  · have h' : username ∉ existing := by simpa using h
    have h3' : r ∈ ROLE_CHOICES := by simpa using h3
    simp [RegisterSerializer_create, h', Nat.not_lt.mpr h2, h3']
  · have h' : username ∉ existing := by simpa using h
    simp [RegisterSerializer_create, h', Nat.not_lt.mpr h2]
  · have h' : username ∉ existing := by simpa using h
    have h3' : r ∉ ROLE_CHOICES := by simpa using h3
    simp [RegisterSerializer_create, h', Nat.not_lt.mpr h2, h3']

/-- Witness for the amended C10 at concrete inputs: the HTML form registers an
anonymous caller with the arbitrary role string, and the API registers an
anonymous caller with role admin. -/
theorem C10_registration_role_amended_witness :
    (([] : List String).contains ("eve") = false
      ∧ register_page [] 11 ("eve") ("pw") (some ("overlord")) =
          .registered { id := 11, username := "eve", role := "overlord" })
    ∧ (8 ≤ ("password123" : String).length
      ∧ RegisterSerializer_create [] 12 ("mallory") ("password123") (some ("admin")) =
          .ok { id := 12, username := "mallory", role := "admin" }) :=
  ⟨⟨by decide,
    (C10_registration_role_amended [] 11 ("eve") ("pw") (some ("overlord")) ("x")).1
      (by decide)⟩,
   ⟨by decide,
    (C10_registration_role_amended [] 12 ("mallory") ("password123") none ("admin")).2.1
      (by decide) (by decide) (by decide)⟩⟩

end JusticeRollOn
